import Mathlib

/-!
Shallow embedding of the AI Research Agent (src/script.js).

Modelling conventions:
* JavaScript numbers are modelled as `ℚ` (the program only compares and
  performs exact decimal arithmetic on them; no rounding behaviour of binary
  floating point is relied upon by any claim).
* `Date` values are modelled as epoch milliseconds (`Nat`).
* Nondeterminism (`Math.random()`, `Date.now()`, log timestamps) is made
  explicit through an `Env` record of oracles; each article's relevance check
  receives its own independent random draw, indexed by catalog position.
* `Array.prototype.sort` with comparator `(a, b) => b.relevance - a.relevance`
  is a stable descending sort (ECMA-262 requires sort stability); the stable
  descending sort of a list is unique, so it is modelled by
  `List.insertionSort relDesc`, which is stable and sorts descending.
-/

/-- A catalog entry / source article: `{title, summary, url, source, relevance}`. -/
structure Article where
  title : String
  summary : String
  url : String
  source : String
  relevance : ℚ
deriving Repr, DecidableEq

/-- One log entry `{timestamp, message}` as produced by `addLog`. -/
structure LogEntry where
  timestamp : String
  message : String
deriving Repr, DecidableEq

/-- `results.metadata` assembled in `persistResults`. -/
structure ResultsMeta where
  totalSources : Nat
  researchDepth : String
  processingTime : Int
deriving Repr, DecidableEq

/-- The durable `results` object written at stage 4. -/
structure ResearchResults where
  summary : String
  sources : List Article
  keywords : List String
  metadata : ResultsMeta
deriving Repr, DecidableEq

/-- Stage-2 output stored on the record (`rawData`). -/
structure RawData where
  wikipedia : List Article
  hackernews : List Article
deriving Repr, DecidableEq

/-- Stage-3 output stored on the record (`processedData`). -/
structure ProcessedData where
  sources : List Article
  summary : String
  keywords : List String
deriving Repr, DecidableEq

/-- The mutable research record created in `startResearch`. -/
structure ResearchRecord where
  id : String
  topic : String
  depth : String
  status : String
  startTime : Nat
  endTime : Option Nat
  progress : ℚ
  currentStep : Nat
  logs : List LogEntry
  rawData : Option RawData
  processedData : Option ProcessedData
  results : Option ResearchResults
deriving Repr, DecidableEq

/-- The agent's mutable fields that the claims are about. -/
structure AgentState where
  currentResearch : Option ResearchRecord
  researchHistory : List ResearchRecord
deriving Repr, DecidableEq

/-- Explicit oracles for the program's sources of nondeterminism: the wall
clock observed at record creation, at `persistResults` and at `returnResults`,
the random id suffix, one `Math.random()` draw per catalog position for each
provider category, and the `toLocaleTimeString()` value for the n-th log. -/
structure Env where
  nowStart : Nat
  nowPersist : Nat
  nowEnd : Nat
  idSuffix : String
  randW : Nat → ℚ
  randHN : Nat → ℚ
  logTime : Nat → String

/-- JS `s.includes(pat)`: `pat` occurs contiguously in `s`. -/
def jsIncludes (s pat : String) : Bool :=
  decide (pat.data <:+: s.data)

/-- JS `s.toLowerCase()` (the catalogs and topics involved are ASCII, where
per-character lowering is exact). -/
def jsToLower (s : String) : String :=
  String.mk (s.data.map Char.toLower)

/-- Split a character list at every occurrence of characters satisfying `p`,
keeping empty pieces, exactly like JS `String.prototype.split`. -/
def splitCharsBy (p : Char → Bool) : List Char → List (List Char)
  | [] => [[]]
  | x :: xs =>
    if p x then [] :: splitCharsBy p xs
    else match splitCharsBy p xs with
      | [] => [[x]]
      | t :: ts => (x :: t) :: ts

/-- JS `s.split(' ')`: split at each single space, keeping empty pieces. -/
def jsSplitOnSpace (s : String) : List String :=
  (splitCharsBy (fun c => c = ' ') s.data).map String.mk

/-- JS `s.trim()`: remove leading and trailing whitespace. -/
def jsTrim (s : String) : String :=
  String.mk (((s.data.dropWhile Char.isWhitespace).reverse.dropWhile
    Char.isWhitespace).reverse)

/-- The `matches` counter of `calculateRelevance`: the number of topic tokens
for which some content token contains the topic token as a substring or
vice versa. -/
def matchedTokenCount (topicWords contentWords : List String) : Nat :=
  (topicWords.filter fun word =>
    contentWords.any fun cWord => jsIncludes cWord word || jsIncludes word cWord).length

/-- `MockAPIService.calculateRelevance(topic, content)`; `rand` is the value
drawn by `Math.random()` during the call. -/
def calculateRelevance (topic content : String) (rand : ℚ) : ℚ :=
  let topicWords := jsSplitOnSpace (jsToLower topic)
  let contentWords := jsSplitOnSpace (jsToLower content)
  min ((matchedTokenCount topicWords contentWords : ℚ) / (topicWords.length : ℚ)
    + rand * (3 / 10)) 1

/-- The fixed Wikipedia catalog (`MockAPIService.generateWikipediaData`). -/
def wikipediaData : List Article :=
  [ { title := "Artificial Intelligence"
    , summary := "Artificial intelligence (AI) is intelligence demonstrated by machines, in contrast to the natural intelligence displayed by humans and animals."
    , url := "https://en.wikipedia.org/wiki/Artificial_intelligence"
    , source := "Wikipedia", relevance := 0.95 }
  , { title := "Machine Learning"
    , summary := "Machine learning (ML) is a type of artificial intelligence that allows software applications to become more accurate at predicting outcomes."
    , url := "https://en.wikipedia.org/wiki/Machine_learning"
    , source := "Wikipedia", relevance := 0.92 }
  , { title := "Deep Learning"
    , summary := "Deep learning is part of a broader family of machine learning methods based on artificial neural networks with representation learning."
    , url := "https://en.wikipedia.org/wiki/Deep_learning"
    , source := "Wikipedia", relevance := 0.88 }
  , { title := "Natural Language Processing"
    , summary := "Natural language processing (NLP) is a subfield of linguistics, computer science, and artificial intelligence concerned with interactions between computers and human language."
    , url := "https://en.wikipedia.org/wiki/Natural_language_processing"
    , source := "Wikipedia", relevance := 0.85 }
  , { title := "Computer Vision"
    , summary := "Computer vision is an interdisciplinary scientific field that deals with how computers can gain high-level understanding from digital images or videos."
    , url := "https://en.wikipedia.org/wiki/Computer_vision"
    , source := "Wikipedia", relevance := 0.82 }
  , { title := "Neural Network"
    , summary := "A neural network is a network or circuit of neurons, or in a modern sense, an artificial neural network, composed of artificial neurons or nodes."
    , url := "https://en.wikipedia.org/wiki/Neural_network"
    , source := "Wikipedia", relevance := 0.80 }
  , { title := "Data Science"
    , summary := "Data science is an inter-disciplinary field that uses scientific methods, processes, algorithms and systems to extract knowledge and insights from data."
    , url := "https://en.wikipedia.org/wiki/Data_science"
    , source := "Wikipedia", relevance := 0.78 }
  , { title := "Robotics"
    , summary := "Robotics is an interdisciplinary research area at the interface of computer science and engineering that deals with the design, construction, operation, and use of robots."
    , url := "https://en.wikipedia.org/wiki/Robotics"
    , source := "Wikipedia", relevance := 0.75 }
  , { title := "Blockchain Technology"
    , summary := "A blockchain is a growing list of records, called blocks, that are linked and secured using cryptography for secure and transparent transactions."
    , url := "https://en.wikipedia.org/wiki/Blockchain"
    , source := "Wikipedia", relevance := 0.70 }
  , { title := "Internet of Things"
    , summary := "The Internet of things (IoT) describes the network of physical objects that are embedded with sensors, software, and other technologies for connecting and exchanging data."
    , url := "https://en.wikipedia.org/wiki/Internet_of_things"
    , source := "Wikipedia", relevance := 0.68 } ]

/-- The fixed HackerNews catalog (`MockAPIService.generateHackerNewsData`). -/
def hackerNewsData : List Article :=
  [ { title := "The Future of AI in Healthcare"
    , summary := "Discussion about how artificial intelligence is revolutionizing medical diagnosis, treatment planning, and patient care across various healthcare sectors."
    , url := "https://news.ycombinator.com/item?id=12345"
    , source := "HackerNews", relevance := 0.90 }
  , { title := "Building Scalable Machine Learning Systems"
    , summary := "Technical discussion on architecture patterns, infrastructure choices, and best practices for deploying ML models at scale in production environments."
    , url := "https://news.ycombinator.com/item?id=12346"
    , source := "HackerNews", relevance := 0.87 }
  , { title := "Open Source AI Tools and Frameworks"
    , summary := "Community discussion about the latest open-source tools, libraries, and frameworks that are driving innovation in artificial intelligence development."
    , url := "https://news.ycombinator.com/item?id=12347"
    , source := "HackerNews", relevance := 0.84 }
  , { title := "Ethics in AI Development"
    , summary := "Important conversation about responsible AI development, bias mitigation, privacy concerns, and the societal impact of artificial intelligence systems."
    , url := "https://news.ycombinator.com/item?id=12348"
    , source := "HackerNews", relevance := 0.81 }
  , { title := "Startup Success with AI Integration"
    , summary := "Real-world case studies and experiences from startups that have successfully integrated AI technologies into their products and business models."
    , url := "https://news.ycombinator.com/item?id=12349"
    , source := "HackerNews", relevance := 0.78 }
  , { title := "Latest Breakthroughs in Research"
    , summary := "Discussion of recent academic papers, research findings, and technological breakthroughs that are pushing the boundaries of what's possible."
    , url := "https://news.ycombinator.com/item?id=12350"
    , source := "HackerNews", relevance := 0.75 }
  , { title := "AI in Software Development"
    , summary := "How artificial intelligence is changing the way we write, test, and maintain code, including AI-powered development tools and automation."
    , url := "https://news.ycombinator.com/item?id=12351"
    , source := "HackerNews", relevance := 0.72 }
  , { title := "Data Privacy and Security"
    , summary := "Technical discussion about protecting user data, implementing privacy-preserving technologies, and maintaining security in data-driven applications."
    , url := "https://news.ycombinator.com/item?id=12352"
    , source := "HackerNews", relevance := 0.69 }
  , { title := "Cloud Computing Innovations"
    , summary := "Latest developments in cloud infrastructure, serverless computing, and distributed systems that enable modern application development."
    , url := "https://news.ycombinator.com/item?id=12353"
    , source := "HackerNews", relevance := 0.66 }
  , { title := "Mobile Technology Trends"
    , summary := "Discussion about emerging mobile technologies, development frameworks, and user experience innovations in mobile application development."
    , url := "https://news.ycombinator.com/item?id=12354"
    , source := "HackerNews", relevance := 0.63 } ]

/-- The filter predicate of `fetchWikipediaArticles` / `fetchHackerNewsArticles`:
title or summary contains the topic (case-insensitively), or the computed
relevance-to-topic score exceeds 0.3.  `rand` is this article's random draw. -/
def articleMatches (topic : String) (rand : ℚ) (article : Article) : Bool :=
  jsIncludes (jsToLower article.title) (jsToLower topic) ||
  jsIncludes (jsToLower article.summary) (jsToLower topic) ||
  decide (calculateRelevance topic (article.title ++ " " ++ article.summary) rand > 3 / 10)

/-- `MockAPIService.fetchWikipediaArticles(topic)`: filter the catalog, return
the first 8 matches.  `rand i` is the `Math.random()` draw used while checking
the catalog entry at position `i`. -/
def fetchWikipediaArticles (topic : String) (rand : Nat → ℚ) : List Article :=
  ((wikipediaData.enum.filter fun p => articleMatches topic (rand p.1) p.2).map
    fun p => p.2).take 8

/-- `MockAPIService.fetchHackerNewsArticles(topic)`: filter the catalog, return
the first 7 matches. -/
def fetchHackerNewsArticles (topic : String) (rand : Nat → ℚ) : List Article :=
  ((hackerNewsData.enum.filter fun p => articleMatches topic (rand p.1) p.2).map
    fun p => p.2).take 7

/-- The ordering used by `processData`'s comparator
`(a, b) => b.relevance - a.relevance`: `a` may come before `b` iff
`b.relevance ≤ a.relevance` (descending by relevance, ties unordered). -/
def relDesc (a b : Article) : Prop := b.relevance ≤ a.relevance

instance : DecidableRel relDesc :=
  fun a b => inferInstanceAs (Decidable (b.relevance ≤ a.relevance))

instance : IsTotal Article relDesc := ⟨fun a b => le_total b.relevance a.relevance⟩

instance : IsTrans Article relDesc := ⟨fun _ _ _ hab hbc => le_trans hbc hab⟩

/-- `allSources.sort((a, b) => b.relevance - a.relevance)`.  ECMA-262 requires
`Array.prototype.sort` to be stable, and a stable descending-by-relevance sort
of a list is unique, so the call is modelled by the (stable) insertion sort
with respect to `relDesc`. -/
def sortByRelevanceDesc (l : List Article) : List Article :=
  List.insertionSort relDesc l

/-- `AIResearchAgent.generateSummary(sources)`; the method reads the topic from
`this.currentResearch`, which is passed explicitly here. -/
def generateSummary (topic : String) (sources : List Article) : String :=
  let sourceCount := sources.length
  "Based on comprehensive analysis of " ++ toString sourceCount ++
  " high-quality sources, here's what we found about \"" ++ topic ++ "\":\n\n" ++
  "The research reveals several key insights and trends in this field. Our analysis indicates significant developments and ongoing discussions around this topic. The sources provide diverse perspectives from academic research, industry reports, and expert opinions.\n\n" ++
  "Key findings include emerging patterns, technological advancements, and practical applications that are shaping the current landscape. The research shows both opportunities and challenges that stakeholders should consider.\n\n" ++
  "This summary synthesizes information from Wikipedia articles, HackerNews discussions, and other authoritative sources to provide a comprehensive overview of the current state and future directions in this area.\n\n" ++
  "The analysis suggests continued growth and evolution in this field, with several factors driving innovation and adoption. Further research and monitoring of developments would be beneficial for staying current with rapid changes."

/-- The fixed `additionalKeywords` list of `extractKeywords`. -/
def additionalKeywords : List String :=
  [ "artificial intelligence", "machine learning", "technology", "innovation"
  , "research", "development", "analysis", "trends", "future", "applications"
  , "industry", "market", "growth", "challenges", "opportunities", "solutions" ]

/-- `[...new Set(l)]`: deduplication keeping the first occurrence of each
element, preserving insertion order (JS `Set` iterates in insertion order). -/
def jsSetDedup : List String → List String
  | [] => []
  | x :: xs => x :: jsSetDedup (xs.filter fun y => decide (y ≠ x))
termination_by l => l.length
decreasing_by
  exact Nat.lt_succ_of_le (List.length_filter_le _ _)

/-- `AIResearchAgent.extractKeywords(topic, sources)`.  The `sources` argument
is accepted but never used by the body. -/
def extractKeywords (topic : String) (sources : List Article) : List String :=
  let baseKeywords := jsSplitOnSpace (jsToLower topic)
  let allKeywords := baseKeywords ++ additionalKeywords
  let uniqueKeywords := jsSetDedup allKeywords
  uniqueKeywords.take 12

/-- The `depthMap = { basic: 5, detailed: 10, comprehensive: 15 }` lookup;
`none` models the `undefined` produced by any other key. -/
def depthMap (depth : String) : Option Nat :=
  if depth = "basic" then some 5
  else if depth = "detailed" then some 10
  else if depth = "comprehensive" then some 15
  else none

/-- `AIResearchAgent.generateId()`, with the clock and the random suffix
supplied by the environment. -/
def generateId (env : Env) : String :=
  "research_" ++ toString env.nowStart ++ "_" ++ env.idSuffix

/-- `AIResearchAgent.addLog(message)`: push `{timestamp, message}`; the
`toLocaleTimeString()` value of the n-th log is `env.logTime n`. -/
def addLog (env : Env) (r : ResearchRecord) (message : String) : ResearchRecord :=
  { r with logs := r.logs ++ [{ timestamp := env.logTime r.logs.length, message := message }] }

/-- The research object created in `startResearch`. -/
def initialRecord (env : Env) (topic depth : String) : ResearchRecord :=
  { id := generateId env
  , topic := topic
  , depth := depth
  , status := "running"
  , startTime := env.nowStart
  , endTime := none
  , progress := 0
  , currentStep := 1
  , logs := []
  , rawData := none
  , processedData := none
  , results := none }

/-- Stage 1, `AIResearchAgent.parseInput`: logging only. -/
def parseInput (env : Env) (r : ResearchRecord) : ResearchRecord :=
  let r1 := addLog env r ("Validating research topic: \"" ++ r.topic ++ "\"")
  let r2 := addLog env r1 ("Research depth set to: " ++ r.depth)
  addLog env r2 "Input validation completed"

/-- Stage 2, `AIResearchAgent.gatherData`: fetch both categories and store
them on the record as `rawData`. -/
def gatherData (env : Env) (r : ResearchRecord) : ResearchRecord :=
  let r1 := addLog env r "Fetching data from external APIs..."
  let sources := fetchWikipediaArticles r.topic env.randW
  let news := fetchHackerNewsArticles r.topic env.randHN
  let r2 := { r1 with rawData := some { wikipedia := sources, hackernews := news } }
  let r3 := addLog env r2 ("Found " ++ toString sources.length ++ " Wikipedia articles")
  let r4 := addLog env r3 ("Found " ++ toString news.length ++ " HackerNews articles")
  addLog env r4 "Data gathering completed"

/-- Stage 3, `AIResearchAgent.processData`: merge the two categories, sort
descending by relevance, truncate to the depth-derived cap, derive summary and
keywords.  `slice(0, undefined)` (an unknown depth) copies the whole list.
Stage ordering guarantees `rawData` is present; the `getD` default is never
reached in a run. -/
def processData (env : Env) (r : ResearchRecord) : ResearchRecord :=
  let r1 := addLog env r "Processing and analyzing collected data..."
  let raw := r.rawData.getD { wikipedia := [], hackernews := [] }
  let allSources := raw.wikipedia ++ raw.hackernews
  let sorted := sortByRelevanceDesc allSources
  let topSources := match depthMap r.depth with
    | some maxArticles => sorted.take maxArticles
    | none => sorted
  let summary := generateSummary r.topic topSources
  let keywords := extractKeywords r.topic topSources
  let r2 := { r1 with processedData := some { sources := topSources, summary := summary, keywords := keywords } }
  let r3 := addLog env r2 ("Processed " ++ toString topSources.length ++ " top articles")
  let r4 := addLog env r3 ("Generated summary (" ++ toString summary.length ++ " characters)")
  let r5 := addLog env r4 ("Extracted " ++ toString keywords.length ++ " keywords")
  addLog env r5 "Data processing completed"

/-- The first half of stage 4, `AIResearchAgent.persistResults`, up to and
including the assembly of `results`: this is exactly the value of the record
at the moment `researchHistory.unshift(this.currentResearch)` runs. -/
def persistAssemble (env : Env) (r : ResearchRecord) : ResearchRecord :=
  let r1 := addLog env r "Saving results to local storage..."
  let pd := r.processedData.getD { sources := [], summary := "", keywords := [] }
  let res : ResearchResults :=
    { summary := pd.summary
    , sources := pd.sources
    , keywords := pd.keywords
    , metadata :=
      { totalSources := pd.sources.length
      , researchDepth := r.depth
      , processingTime := (env.nowPersist : Int) - (r.startTime : Int) } }
  { r1 with results := some res }

/-- Stage 4, `AIResearchAgent.persistResults`, as a record transformer: the
`unshift` into `researchHistory` and the `saveHistory()` write are modelled at
the state level (see `startResearch`). -/
def persistResults (env : Env) (r : ResearchRecord) : ResearchRecord :=
  let r2 := addLog env (persistAssemble env r) "Results saved successfully"
  addLog env r2 "Research added to history"

/-- Stage 5, `AIResearchAgent.returnResults`: mark completed, set `endTime`. -/
def returnResults (env : Env) (r : ResearchRecord) : ResearchRecord :=
  let r1 := addLog env r "Preparing results for display..."
  let r2 := { r1 with status := "completed", endTime := some env.nowEnd }
  addLog env r2 "Research workflow completed successfully"

/-- The step names of `runResearchWorkflow`. -/
def stepName : Nat → String
  | 1 => "Input Parsing"
  | 2 => "Data Gathering"
  | 3 => "Processing"
  | 4 => "Result Persistence"
  | 5 => "Return Results"
  | _ => ""

/-- The `switch (stepNumber)` of `executeStep`. -/
def stepLogic (env : Env) : Nat → ResearchRecord → ResearchRecord
  | 1 => parseInput env
  | 2 => gatherData env
  | 3 => processData env
  | 4 => persistResults env
  | 5 => returnResults env
  | _ => id

/-- `AIResearchAgent.executeStep(stepNumber, step)`: set `currentStep`, log the
start, run the step logic, log completion, update `progress`. -/
def executeStep (env : Env) (n : Nat) (r : ResearchRecord) : ResearchRecord :=
  let r1 := { r with currentStep := n }
  let r2 := addLog env r1 ("Starting " ++ stepName n ++ "...")
  let r3 := stepLogic env n r2
  let r4 := addLog env r3 (stepName n ++ " completed successfully")
  { r4 with progress := (n : ℚ) / 5 * 100 }

/-- The record after the first `n` steps of `runResearchWorkflow` have run. -/
def stateAfterStep (env : Env) (topic depth : String) : Nat → ResearchRecord
  | 0 => initialRecord env topic depth
  | n + 1 => executeStep env (n + 1) (stateAfterStep env topic depth n)

/-- The record at the end of the whole workflow (all five steps).  The final
`this.completeResearch()` call in `runResearchWorkflow` references a method
that does not exist; the resulting TypeError occurs after every state mutation
of the run and is therefore irrelevant to the record and the history. -/
def runRecord (env : Env) (topic depth : String) : ResearchRecord :=
  stateAfterStep env topic depth 5

/-- The value of the research record at the exact moment stage 4 executes
`this.researchHistory.unshift(this.currentResearch)`. -/
def recordAtPrepend (env : Env) (topic depth : String) : ResearchRecord :=
  persistAssemble env
    (addLog env { stateAfterStep env topic depth 3 with currentStep := 4 }
      ("Starting " ++ stepName 4 ++ "..."))

/-- `AIResearchAgent.startResearch(topic, depth)`: create the record, run the
workflow.  `unshift` stores a reference to `this.currentResearch`, so after
the run the head of `researchHistory` and `currentResearch` are one and the
same object, whose value is the final record. -/
def startResearch (env : Env) (st : AgentState) (topic depth : String) : AgentState :=
  { currentResearch := some (runRecord env topic depth)
  , researchHistory := runRecord env topic depth :: st.researchHistory }

/-- `AIResearchAgent.handleSubmit(e)`: trim the topic; an empty topic shows
an error (`Some message`) and returns without touching any state; otherwise
run `startResearch`.  No other check is performed before starting the run. -/
def handleSubmit (env : Env) (st : AgentState) (rawTopic depth : String) :
    AgentState × Option String :=
  let topic := jsTrim rawTopic
  if topic = "" then (st, some "Please enter a research topic")
  else (startResearch env st topic depth, none)

/-- `researchHistory.find(r => r.id === researchId)` (the History Store's
`findById`). -/
def findById (hist : List ResearchRecord) (researchId : String) : Option ResearchRecord :=
  hist.find? fun r => r.id == researchId

/-- Decimal digits of a natural number, most significant first. -/
def natToDigits (n : Nat) : List Nat :=
  if n < 10 then [n] else natToDigits (n / 10) ++ [n % 10]
decreasing_by
  exact Nat.div_lt_self (by omega) (by omega)

/-- Read a list of decimal digits back into a natural number. -/
def digitsToNat (ds : List Nat) : Nat :=
  ds.foldl (fun acc d => acc * 10 + d) 0

/-- The character for a decimal digit. -/
def digitChar (d : Nat) : Char :=
  Char.ofNat (48 + d)

/-- The decimal digit for a character. -/
def charDigit (c : Char) : Nat :=
  c.toNat - 48

/-- Serialization of a `Date` through `JSON.stringify` / `new Date(...)` is
modelled by an instant-preserving textual encoding of the epoch-millisecond
value (the runtime pair `Date.prototype.toJSON` / the `Date` constructor is
likewise lossless at millisecond precision). -/
def dateToString (t : Nat) : String :=
  String.mk ((natToDigits t).map digitChar)

/-- Parse the textual timestamp back into epoch milliseconds. -/
def stringToDate (s : String) : Nat :=
  digitsToNat (s.data.map charDigit)

/-- The shape of one research record inside the persisted
`aiResearchHistory` JSON value: identical to `ResearchRecord` except that the
two timestamp fields have been turned into strings (`endTime` may be absent). -/
structure SerRecord where
  id : String
  topic : String
  depth : String
  status : String
  startTime : String
  endTime : Option String
  progress : ℚ
  currentStep : Nat
  logs : List LogEntry
  rawData : Option RawData
  processedData : Option ProcessedData
  results : Option ResearchResults
deriving Repr, DecidableEq

/-- The effect of `JSON.stringify` on one record (`Date` fields become their
textual instants, everything else passes through structurally). -/
def serializeRecord (r : ResearchRecord) : SerRecord :=
  { id := r.id
  , topic := r.topic
  , depth := r.depth
  , status := r.status
  , startTime := dateToString r.startTime
  , endTime := r.endTime.map dateToString
  , progress := r.progress
  , currentStep := r.currentStep
  , logs := r.logs
  , rawData := r.rawData
  , processedData := r.processedData
  , results := r.results }

/-- The date-restoring map of `loadHistory`:
`{...research, startTime: new Date(...), endTime: research.endTime ? new Date(...) : null}`. -/
def restoreRecord (s : SerRecord) : ResearchRecord :=
  { id := s.id
  , topic := s.topic
  , depth := s.depth
  , status := s.status
  , startTime := stringToDate s.startTime
  , endTime := s.endTime.map stringToDate
  , progress := s.progress
  , currentStep := s.currentStep
  , logs := s.logs
  , rawData := s.rawData
  , processedData := s.processedData
  , results := s.results }

/-- `AIResearchAgent.saveHistory()`: `JSON.stringify(this.researchHistory)`,
modelled at the JSON-value level as the list of serialized records that the
stored text denotes. -/
def saveHistory (hist : List ResearchRecord) : List SerRecord :=
  hist.map serializeRecord

/-- `AIResearchAgent.loadHistory()`.  The argument is the outcome of the
runtime calls `localStorage.getItem` / `JSON.parse` on the stored text:
`none` when nothing is stored, `some (Except.error e)` when the stored text
cannot be parsed (`JSON.parse` throws), `some (Except.ok l)` when it parses
to the list `l`.  The `try/catch` makes both failure paths return `[]`. -/
def loadHistory (stored : Option (Except String (List SerRecord))) : List ResearchRecord :=
  match stored with
  | none => []
  | some (Except.error _) => []
  | some (Except.ok l) => l.map restoreRecord

theorem digitsToNat_append (xs : List Nat) (d : Nat) :
    digitsToNat (xs ++ [d]) = digitsToNat xs * 10 + d := by
  simp [digitsToNat, List.foldl_append]

theorem digitsToNat_natToDigits (n : Nat) : digitsToNat (natToDigits n) = n := by
  induction n using Nat.strong_induction_on with
  | _ n ih =>
    rw [natToDigits]
    split
    · simp [digitsToNat]
    · rename_i h
      rw [digitsToNat_append, ih (n / 10) (Nat.div_lt_self (by omega) (by omega))]
      omega

theorem natToDigits_lt_ten (n : Nat) : ∀ d ∈ natToDigits n, d < 10 := by
  induction n using Nat.strong_induction_on with
  | _ n ih =>
    rw [natToDigits]
    split
    · rename_i h
      intro d hd
      simp only [List.mem_singleton] at hd
      omega
    · rename_i h
      intro d hd
      rcases List.mem_append.1 hd with h1 | h1
      · exact ih (n / 10) (Nat.div_lt_self (by omega) (by omega)) d h1
      · simp only [List.mem_singleton] at h1
        subst h1
        exact Nat.mod_lt _ (by omega)

theorem charDigit_digitChar : ∀ d, d < 10 → charDigit (digitChar d) = d := by
  decide

/-- The timestamp encoding is the identity instant-wise. -/
theorem stringToDate_dateToString (t : Nat) : stringToDate (dateToString t) = t := by
  unfold stringToDate dateToString
  have hdata : (String.mk ((natToDigits t).map digitChar)).data
      = (natToDigits t).map digitChar := rfl
  rw [hdata, List.map_map]
  have hcong : (natToDigits t).map (charDigit ∘ digitChar) = (natToDigits t).map id := by
    refine List.map_congr_left fun d hd => ?_
    exact charDigit_digitChar d (natToDigits_lt_ten t d hd)
  rw [hcong, List.map_id]
  exact digitsToNat_natToDigits t

theorem restoreRecord_serializeRecord (r : ResearchRecord) :
    restoreRecord (serializeRecord r) = r := by
  cases r with
  | mk id topic depth status startTime endTime progress currentStep logs rawData pd results =>
    simp only [restoreRecord, serializeRecord, stringToDate_dateToString]
    cases endTime <;> simp [stringToDate_dateToString]

/-- C7: appending a record to the History Store and then loading returns the
new record as the first element, and the `startTime` / `endTime` timestamps
round-trip through serialization to equivalent instants (the whole list is in
fact recovered unchanged). -/
theorem append_then_load_roundtrip (rec : ResearchRecord) (hist : List ResearchRecord) :
    loadHistory (some (Except.ok (saveHistory (rec :: hist)))) = rec :: hist ∧
    (loadHistory (some (Except.ok (saveHistory (rec :: hist))))).head? = some rec ∧
    stringToDate (dateToString rec.startTime) = rec.startTime ∧
    (serializeRecord rec).endTime.map stringToDate = rec.endTime := by
  have hall : loadHistory (some (Except.ok (saveHistory (rec :: hist)))) = rec :: hist := by
    simp only [loadHistory, saveHistory, List.map_map]
    have : (rec :: hist).map (restoreRecord ∘ serializeRecord) = (rec :: hist).map id := by
      refine List.map_congr_left fun r _ => restoreRecord_serializeRecord r
    rw [this, List.map_id]
  refine ⟨hall, by rw [hall]; rfl, stringToDate_dateToString rec.startTime, ?_⟩
  have := congrArg ResearchRecord.endTime (restoreRecord_serializeRecord rec)
  simpa [restoreRecord] using this

/-- C8: when the persisted history text cannot be parsed (`JSON.parse`
throws), `loadHistory` falls back to the empty list instead of propagating the
exception, and an absent store also yields the empty list. -/
theorem corrupt_history_loads_empty (e : String) :
    loadHistory (some (Except.error e)) = [] ∧ loadHistory none = [] :=
  ⟨rfl, rfl⟩

/-- The matched fraction computed with the source's actual tokenization
(`split(' ')`, single spaces): `calculateRelevance` is exactly this fraction
plus the clamped jitter. -/
def spaceMatchedFraction (topic content : String) : ℚ :=
  let topicWords := jsSplitOnSpace (jsToLower topic)
  (matchedTokenCount topicWords (jsSplitOnSpace (jsToLower content)) : ℚ)
    / (topicWords.length : ℚ)

/-- Modelled from the spec: the claim's "fraction of whitespace-delimited
topic tokens matched in the content", i.e. the same matched fraction but with
tokens delimited by any whitespace character, not only by single spaces. -/
def whitespaceMatchedFraction (topic content : String) : ℚ :=
  let topicWords := (splitCharsBy Char.isWhitespace (jsToLower topic).data).map String.mk
  let contentWords := (splitCharsBy Char.isWhitespace (jsToLower content).data).map String.mk
  (matchedTokenCount topicWords contentWords : ℚ) / (topicWords.length : ℚ)

/-- C9 counterexample: for the topic `"x\ty"` (a tab inside) and content
`"x q"`, the code's score (with zero jitter) is `1`, but the fraction of
whitespace-delimited topic tokens matched, clamped with zero jitter, is
`1/2`: the claim's "whitespace-delimited" description of the tokenizer is
wrong, the code splits on single spaces only. -/
theorem relevance_whitespace_claim_false :
    calculateRelevance "x\ty" "x q" 0 ≠
      min (whitespaceMatchedFraction "x\ty" "x q" + 0 * (3 / 10)) 1 := by
  have e1 : jsSplitOnSpace (jsToLower "x\ty") = ["x\ty"] := by decide
  have e2 : jsSplitOnSpace (jsToLower "x q") = ["x", "q"] := by decide
  have e3 : matchedTokenCount ["x\ty"] ["x", "q"] = 1 := by decide
  have w1 : (splitCharsBy Char.isWhitespace (jsToLower "x\ty").data).map String.mk
      = ["x", "y"] := by decide
  have w2 : (splitCharsBy Char.isWhitespace (jsToLower "x q").data).map String.mk
      = ["x", "q"] := by decide
  have w3 : matchedTokenCount ["x", "y"] ["x", "q"] = 1 := by decide
  have h1 : calculateRelevance "x\ty" "x q" 0 = 1 := by
    rw [calculateRelevance]
    simp only [e1, e2, e3]
    norm_num
  have h2 : whitespaceMatchedFraction "x\ty" "x q" = 1 / 2 := by
    rw [whitespaceMatchedFraction]
    simp only [w1, w2, w3]
    norm_num
  rw [h1, h2]
  norm_num

/-- C9 (amended: the topic tokens are space-delimited, as by JS `split(' ')`,
rather than whitespace-delimited): for every non-empty topic, the score equals
the matched space-delimited-token fraction plus a jitter `rand * 0.3` lying in
`[0, 0.3)`, clamped at `1`; consequently the score lies in `[0, 1]`. -/
theorem relevance_score_form_and_bounds (topic content : String) (rand : ℚ)
    (ht : topic ≠ "") (h0 : 0 ≤ rand) (h1 : rand < 1) :
    calculateRelevance topic content rand =
      min (spaceMatchedFraction topic content + rand * (3 / 10)) 1 ∧
    0 ≤ rand * (3 / 10) ∧ rand * (3 / 10) < 3 / 10 ∧
    0 ≤ calculateRelevance topic content rand ∧
    calculateRelevance topic content rand ≤ 1 := by
  have hform : calculateRelevance topic content rand =
      min (spaceMatchedFraction topic content + rand * (3 / 10)) 1 := by
    rw [calculateRelevance, spaceMatchedFraction]
  have hfrac0 : 0 ≤ spaceMatchedFraction topic content := by
    rw [spaceMatchedFraction]
    exact div_nonneg (by positivity) (by positivity)
  have hfrac1 : spaceMatchedFraction topic content ≤ 1 := by
    rw [spaceMatchedFraction]
    set tw := jsSplitOnSpace (jsToLower topic) with htw
    have hm : matchedTokenCount tw (jsSplitOnSpace (jsToLower content)) ≤ tw.length :=
      List.length_filter_le _ _
    rcases Nat.eq_zero_or_pos tw.length with hz | hp
    · have hmz : matchedTokenCount tw (jsSplitOnSpace (jsToLower content)) = 0 := by omega
      simp [hmz, hz]
    · have hpos : (0 : ℚ) < (tw.length : ℚ) := by exact_mod_cast hp
      rw [div_le_one hpos]
      exact_mod_cast hm
  have hj0 : 0 ≤ rand * (3 / 10) := by positivity
  have hj1 : rand * (3 / 10) < 3 / 10 := by
    calc rand * (3 / 10) < 1 * (3 / 10) := by
          exact mul_lt_mul_of_pos_right h1 (by norm_num)
      _ = 3 / 10 := one_mul _
  refine ⟨hform, hj0, hj1, ?_, ?_⟩
  · rw [hform]
    exact le_min (add_nonneg hfrac0 hj0) zero_le_one
  · rw [hform]
    exact min_le_right _ _

/-- Witness for `relevance_score_form_and_bounds` at a concrete input. -/
theorem relevance_score_form_and_bounds_witness :
    0 ≤ calculateRelevance "ai" "the ai field" 0 ∧
    calculateRelevance "ai" "the ai field" 0 ≤ 1 :=
  ⟨(relevance_score_form_and_bounds "ai" "the ai field" 0 (by decide) (by norm_num)
      (by norm_num)).2.2.2.1,
   (relevance_score_form_and_bounds "ai" "the ai field" 0 (by decide) (by norm_num)
      (by norm_num)).2.2.2.2⟩

theorem cons_prefix_of (x : String) {a b : List String} (h : a <+: b) :
    x :: a <+: x :: b := by
  rcases h with ⟨t, rfl⟩
  exact ⟨t, rfl⟩

/-- First-occurrence deduplication of a concatenation begins with the
deduplication of the first part. -/
theorem jsSetDedup_append : ∀ (xs ys : List String),
    jsSetDedup xs <+: jsSetDedup (xs ++ ys)
  | [], ys => by
    rw [List.nil_append, jsSetDedup]
    exact List.nil_prefix
  | x :: t, ys => by
    rw [List.cons_append, jsSetDedup, jsSetDedup, List.filter_append]
    exact cons_prefix_of x
      (jsSetDedup_append (t.filter fun y => decide (y ≠ x))
        (ys.filter fun y => decide (y ≠ x)))
termination_by xs _ => xs.length
decreasing_by
  exact Nat.lt_succ_of_le (List.length_filter_le _ _)

theorem take_mono_of_prefix (n : Nat) {a b : List String} (h : a <+: b) :
    a.take n <+: b.take n := by
  rcases h with ⟨t, rfl⟩
  rw [List.take_append_eq_append_take]
  exact ⟨_, rfl⟩

/-- C10: the generated summary depends only on the topic and the number of
selected sources; the keyword list does not depend on the sources at all, it
is the first 12 distinct entries of the lowercased topic tokens followed by
the fixed keyword list, hence it has at most 12 entries, and it begins with
the topic's distinct tokens (their first 12, should there be more). -/
theorem summary_keywords_depend_only_on_counts (topic : String) (s1 s2 : List Article)
    (h : s1.length = s2.length) :
    generateSummary topic s1 = generateSummary topic s2 ∧
    extractKeywords topic s1 = extractKeywords topic s2 ∧
    extractKeywords topic s1 =
      (jsSetDedup (jsSplitOnSpace (jsToLower topic) ++ additionalKeywords)).take 12 ∧
    (extractKeywords topic s1).length ≤ 12 ∧
    (jsSetDedup (jsSplitOnSpace (jsToLower topic))).take 12 <+: extractKeywords topic s1 := by
  refine ⟨?_, rfl, rfl, ?_, ?_⟩
  · rw [generateSummary, generateSummary, h]
  · exact List.length_take_le _ _
  · exact take_mono_of_prefix 12 (jsSetDedup_append _ _)

/-- Witness for `summary_keywords_depend_only_on_counts`: two distinct
one-element source lists give the identical summary and keywords. -/
theorem summary_keywords_depend_only_on_counts_witness :
    generateSummary "ai" (wikipediaData.take 1) = generateSummary "ai" (hackerNewsData.take 1) ∧
    extractKeywords "ai" (wikipediaData.take 1) = extractKeywords "ai" (hackerNewsData.take 1) :=
  ⟨(summary_keywords_depend_only_on_counts "ai" (wikipediaData.take 1)
      (hackerNewsData.take 1) (by rfl)).1,
   (summary_keywords_depend_only_on_counts "ai" (wikipediaData.take 1)
      (hackerNewsData.take 1) (by rfl)).2.1⟩

/-- The merged candidate list of stage 3 (`[...wikipedia, ...hackernews]`). -/
def allFetched (env : Env) (topic : String) : List Article :=
  fetchWikipediaArticles topic env.randW ++ fetchHackerNewsArticles topic env.randHN

/-- The `results.sources` list of a record (empty when `results` is unset). -/
def resultSources (r : ResearchRecord) : List Article :=
  match r.results with
  | some res => res.sources
  | none => []

theorem runRecord_unfold (env : Env) (topic depth : String) :
    runRecord env topic depth =
      executeStep env 5 (executeStep env 4 (executeStep env 3
        (executeStep env 2 (executeStep env 1 (initialRecord env topic depth))))) := rfl

/-- The final record's `results.sources` is the merged fetched list, sorted
descending by relevance and truncated by the depth cap (untruncated for an
unknown depth, as `slice(0, undefined)` copies the list). -/
theorem resultSources_runRecord (env : Env) (topic depth : String) :
    resultSources (runRecord env topic depth) =
      match depthMap depth with
      | some m => (sortByRelevanceDesc (allFetched env topic)).take m
      | none => sortByRelevanceDesc (allFetched env topic) := by
  rw [runRecord_unfold]
  simp only [executeStep, stepLogic, stepName, parseInput, gatherData, processData,
    persistResults, persistAssemble, returnResults, addLog, initialRecord,
    resultSources, allFetched, Option.getD_some]

/-- `sortByRelevanceDesc` sorts descending: every element is related by
`relDesc` (relevance at least as large) to every later element. -/
theorem sortByRelevanceDesc_sorted (l : List Article) :
    (sortByRelevanceDesc l).Pairwise relDesc :=
  List.sorted_insertionSort relDesc l

/-- Inserting `a` keeps the elements of any fixed relevance `q` in place: `a`
joins them at the front exactly when its own relevance is `q` (it is placed
after every strictly larger element and before every other element). -/
theorem filter_relEq_orderedInsert (q : ℚ) (a : Article) :
    ∀ l : List Article,
      (List.orderedInsert relDesc a l).filter (fun x => decide (x.relevance = q)) =
        if a.relevance = q
        then a :: l.filter (fun x => decide (x.relevance = q))
        else l.filter (fun x => decide (x.relevance = q))
  | [] => by
    by_cases ha : a.relevance = q <;>
      simp [List.orderedInsert, List.filter, ha]
  | b :: l => by
    have ih := filter_relEq_orderedInsert q a l
    rw [List.orderedInsert]
    by_cases hab : relDesc a b
    · rw [if_pos hab]
      by_cases ha : a.relevance = q <;> simp [List.filter_cons, ha]
    · rw [if_neg hab]
      have hlt : a.relevance < b.relevance := lt_of_not_le hab
      by_cases hb : b.relevance = q
      · have ha : ¬ a.relevance = q := by
          intro ha
          rw [ha, hb] at hlt
          exact lt_irrefl q hlt
        simp [List.filter_cons, hb, ha, ih]
      · by_cases ha : a.relevance = q <;> simp [List.filter_cons, hb, ha, ih]

/-- Stability of the sort: for each relevance value `q`, the sublist of
entries with relevance `q` is unchanged by `sortByRelevanceDesc`. -/
theorem filter_relEq_sortByRelevanceDesc (q : ℚ) :
    ∀ l : List Article,
      (sortByRelevanceDesc l).filter (fun x => decide (x.relevance = q)) =
        l.filter (fun x => decide (x.relevance = q))
  | [] => rfl
  | x :: l => by
    have ih := filter_relEq_sortByRelevanceDesc q l
    rw [sortByRelevanceDesc] at ih ⊢
    rw [List.insertionSort, filter_relEq_orderedInsert]
    by_cases hx : x.relevance = q <;> simp [List.filter_cons, hx, ih]

theorem filter_take_prefix (p : Article → Bool) (n : Nat) (l : List Article) :
    (l.take n).filter p <+: l.filter p := by
  refine ⟨(l.drop n).filter p, ?_⟩
  rw [← List.filter_append, List.take_append_drop]

/-- C2: for a valid depth (`basic` / `detailed` / `comprehensive`, with caps
5 / 10 / 15), the completed record carries a `results` object whose `sources`
list has at most `cap` entries, and never more than 15 = 8 + 7 entries
(provider caps), for every topic and every outcome of the random jitter. -/
theorem sources_length_bounded (env : Env) (topic depth : String) (cap : Nat)
    (h : depthMap depth = some cap) :
    (runRecord env topic depth).results.isSome = true ∧
    (resultSources (runRecord env topic depth)).length ≤ cap ∧
    (resultSources (runRecord env topic depth)).length ≤ 15 := by
  have hrs := resultSources_runRecord env topic depth
  rw [h] at hrs
  have hW : (fetchWikipediaArticles topic env.randW).length ≤ 8 :=
    List.length_take_le _ _
  have hHN : (fetchHackerNewsArticles topic env.randHN).length ≤ 7 :=
    List.length_take_le _ _
  have hall : (allFetched env topic).length ≤ 15 := by
    rw [allFetched, List.length_append]
    omega
  have hsorted : (sortByRelevanceDesc (allFetched env topic)).length =
      (allFetched env topic).length :=
    (List.perm_insertionSort relDesc _).length_eq
  refine ⟨rfl, ?_, ?_⟩
  · rw [hrs]
    exact List.length_take_le _ _
  · rw [hrs]
    calc ((sortByRelevanceDesc (allFetched env topic)).take cap).length
        ≤ (sortByRelevanceDesc (allFetched env topic)).length := by
          rw [List.length_take]
          exact min_le_right _ _
      _ ≤ 15 := by rw [hsorted]; exact hall

/-- Witness for `sources_length_bounded` with depth `basic` (cap 5). -/
theorem sources_length_bounded_witness :
    (resultSources (runRecord
      { nowStart := 1, nowPersist := 2, nowEnd := 3, idSuffix := "a"
      , randW := fun _ => 0, randHN := fun _ => 0, logTime := fun _ => "t" }
      "ai" "basic")).length ≤ 5 :=
  (sources_length_bounded
    { nowStart := 1, nowPersist := 2, nowEnd := 3, idSuffix := "a"
    , randW := fun _ => 0, randHN := fun _ => 0, logTime := fun _ => "t" }
    "ai" "basic" 5 (by decide)).2.1

/-- C3: in every run (any topic, any depth, any jitter outcome) the final
`results.sources` list is sorted descending by relevance — adjacent entries
never increase — and entries of equal relevance keep their original merge
order (Wikipedia catalog order, then HackerNews catalog order): for every
relevance value the equal-relevance sublist of `results.sources` is an
initial segment of the corresponding sublist of the merged fetched list. -/
theorem sources_sorted_and_stable (env : Env) (topic depth : String) :
    (resultSources (runRecord env topic depth)).Pairwise relDesc ∧
    ∀ q : ℚ,
      (resultSources (runRecord env topic depth)).filter (fun a => decide (a.relevance = q))
        <+: (allFetched env topic).filter (fun a => decide (a.relevance = q)) := by
  have hrs := resultSources_runRecord env topic depth
  rcases hm : depthMap depth with _ | m <;> rw [hm] at hrs <;>
    simp only [] at hrs
  · constructor
    · rw [hrs]
      exact sortByRelevanceDesc_sorted _
    · intro q
      rw [hrs, filter_relEq_sortByRelevanceDesc]
  · constructor
    · rw [hrs]
      exact (sortByRelevanceDesc_sorted (allFetched env topic)).sublist
        (List.take_sublist _ _)
    · intro q
      rw [hrs]
      have hp := filter_take_prefix (fun a => decide (a.relevance = q)) m
        (sortByRelevanceDesc (allFetched env topic))
      rwa [filter_relEq_sortByRelevanceDesc] at hp

/-- C5: `currentStep` is 1 on creation and after step `k` equals exactly `k`
for `k = 1..5` (so it visits 1,2,3,4,5 in strictly increasing order, once
each, staying inside `[1,5]` for the whole run), and `progress` at the end of
step `k` equals exactly `k * 20` (that is `k/5 * 100`), starting from 0. -/
theorem step_progression_exact (env : Env) (topic depth : String) :
    (stateAfterStep env topic depth 0).currentStep = 1 ∧
    (stateAfterStep env topic depth 0).progress = 0 ∧
    (stateAfterStep env topic depth 1).currentStep = 1 ∧
    (stateAfterStep env topic depth 1).progress = 20 ∧
    (stateAfterStep env topic depth 2).currentStep = 2 ∧
    (stateAfterStep env topic depth 2).progress = 40 ∧
    (stateAfterStep env topic depth 3).currentStep = 3 ∧
    (stateAfterStep env topic depth 3).progress = 60 ∧
    (stateAfterStep env topic depth 4).currentStep = 4 ∧
    (stateAfterStep env topic depth 4).progress = 80 ∧
    (stateAfterStep env topic depth 5).currentStep = 5 ∧
    (stateAfterStep env topic depth 5).progress = 100 := by
  refine ⟨rfl, rfl, rfl, ?_, rfl, ?_, rfl, ?_, rfl, ?_, rfl, ?_⟩
  · show ((1 : Nat) : ℚ) / 5 * 100 = 20
    norm_num
  · show ((2 : Nat) : ℚ) / 5 * 100 = 40
    norm_num
  · show ((3 : Nat) : ℚ) / 5 * 100 = 60
    norm_num
  · show ((4 : Nat) : ℚ) / 5 * 100 = 80
    norm_num
  · show ((5 : Nat) : ℚ) / 5 * 100 = 100
    norm_num

/-- A concrete environment used by the scenario theorems. -/
def envDemo : Env :=
  { nowStart := 1, nowPersist := 2, nowEnd := 3, idSuffix := "a"
  , randW := fun _ => 0, randHN := fun _ => 0, logTime := fun _ => "t" }

/-- A concrete agent state in which a research run is currently active. -/
def runningRecord : ResearchRecord :=
  { id := "research_0_z", topic := "ml", depth := "basic", status := "running"
  , startTime := 0, endTime := none, progress := 20, currentStep := 1
  , logs := [], rawData := none, processedData := none, results := none }

/-- An agent state holding a running (not yet completed) record. -/
def busyState : AgentState :=
  { currentResearch := some runningRecord, researchHistory := [] }

/-- C6: submitting with a topic that trims to empty fails before any state
mutation: the state is returned unchanged (no record created, history
untouched, an error message surfaced), so `findById` answers exactly as
before the rejected call for every id. -/
theorem empty_topic_no_mutation (env : Env) (st : AgentState) (rawTopic depth : String)
    (h : jsTrim rawTopic = "") :
    handleSubmit env st rawTopic depth = (st, some "Please enter a research topic") ∧
    ∀ researchId,
      findById (handleSubmit env st rawTopic depth).1.researchHistory researchId
        = findById st.researchHistory researchId := by
  have hmain : handleSubmit env st rawTopic depth
      = (st, some "Please enter a research topic") := by
    rw [handleSubmit]
    simp [h]
  exact ⟨hmain, fun researchId => by rw [hmain]⟩

/-- Witness for `empty_topic_no_mutation`: a whitespace-only topic. -/
theorem empty_topic_no_mutation_witness :
    handleSubmit envDemo busyState "   " "basic"
      = (busyState, some "Please enter a research topic") :=
  (empty_topic_no_mutation envDemo busyState "   " "basic" (by decide)).1

/-- C1 counterexample: with a run active (`busyState` holds a record with
status `running`), a second valid submission is not rejected — no error is
surfaced — and the state does change: the history grows by one record and the
state differs from the one before the call.  The claimed
`RunInProgressError` rejection with no state change does not happen. -/
theorem second_submit_not_rejected :
    busyState.currentResearch.map ResearchRecord.status = some "running" ∧
    (handleSubmit envDemo busyState "ai" "basic").2 = none ∧
    (handleSubmit envDemo busyState "ai" "basic").1.researchHistory.length
      = busyState.researchHistory.length + 1 ∧
    (handleSubmit envDemo busyState "ai" "basic").1 ≠ busyState := by
  have hne : ¬ (jsTrim "ai" = "") := by decide
  have hsub : handleSubmit envDemo busyState "ai" "basic"
      = (startResearch envDemo busyState (jsTrim "ai") "basic", none) := by
    rw [handleSubmit]
    simp [hne]
  refine ⟨rfl, by rw [hsub], ?_, ?_⟩
  · rw [hsub]
    simp [startResearch]
  · intro heq
    have hlen := congrArg (fun s => s.researchHistory.length) heq
    rw [hsub] at hlen
    simp [startResearch, busyState] at hlen

/-- C1 (amended): `handleSubmit` performs no run-in-progress check.  While a
run is active, a second request with a non-empty trimmed topic is accepted:
no error is surfaced, `currentResearch` is overwritten with the new run's
record, and that record is prepended to the history.  (In the page the form
controls are disabled during a run; no `RunInProgressError` exists anywhere
in the code.) -/
theorem submit_while_running_accepted (env : Env) (st : AgentState)
    (rawTopic depth : String)
    (hrun : st.currentResearch.map ResearchRecord.status = some "running")
    (h : ¬ (jsTrim rawTopic = "")) :
    (handleSubmit env st rawTopic depth).2 = none ∧
    (handleSubmit env st rawTopic depth).1.currentResearch
      = some (runRecord env (jsTrim rawTopic) depth) ∧
    (handleSubmit env st rawTopic depth).1.researchHistory
      = runRecord env (jsTrim rawTopic) depth :: st.researchHistory := by
  have hsub : handleSubmit env st rawTopic depth
      = (startResearch env st (jsTrim rawTopic) depth, none) := by
    rw [handleSubmit]
    simp [h]
  rw [hsub]
  exact ⟨rfl, rfl, rfl⟩

/-- Witness for `submit_while_running_accepted`. -/
theorem submit_while_running_accepted_witness :
    (handleSubmit envDemo busyState "ai" "basic").2 = none :=
  (submit_while_running_accepted envDemo busyState "ai" "basic" rfl (by decide)).1

/-- C4 counterexample: in a concrete run, the record object handed to the
History Store at the stage-4 prepend is mutated afterwards — the same object
later flips `status` from `running` to `completed` — so its value at prepend
time differs from the final value of the stored record. -/
theorem record_mutated_after_prepend :
    (recordAtPrepend envDemo "ai" "basic").status = "running" ∧
    (runRecord envDemo "ai" "basic").status = "completed" ∧
    recordAtPrepend envDemo "ai" "basic" ≠ runRecord envDemo "ai" "basic" := by
  refine ⟨rfl, rfl, ?_⟩
  intro h
  have hst := congrArg ResearchRecord.status h
  rw [show (recordAtPrepend envDemo "ai" "basic").status = "running" from rfl,
      show (runRecord envDemo "ai" "basic").status = "completed" from rfl] at hst
  exact absurd hst (by decide)

theorem stateAfterStep_three (env : Env) (topic depth : String) :
    stateAfterStep env topic depth 3
      = executeStep env 3 (executeStep env 2 (executeStep env 1
          (initialRecord env topic depth))) := rfl

/-- C4 (amended): after the stage-4 prepend the stored record object is still
mutated, but only in bounded ways: its `id`, `topic`, `depth`, `startTime`
and `results` never change again, while further logs are appended (the
prepend-time log list is a prefix of the final one), `progress` is updated
(ending at 100), and stage 5 sets `status` to `completed` and `endTime` —
that is, the record is not read-only after the prepend; in particular two log
entries and the final progress update happen after `status` is already
`completed`. -/
theorem record_after_prepend_fields (env : Env) (topic depth : String) :
    (recordAtPrepend env topic depth).id = (runRecord env topic depth).id ∧
    (recordAtPrepend env topic depth).topic = (runRecord env topic depth).topic ∧
    (recordAtPrepend env topic depth).depth = (runRecord env topic depth).depth ∧
    (recordAtPrepend env topic depth).startTime = (runRecord env topic depth).startTime ∧
    (recordAtPrepend env topic depth).results = (runRecord env topic depth).results ∧
    (recordAtPrepend env topic depth).status = "running" ∧
    (runRecord env topic depth).status = "completed" ∧
    (runRecord env topic depth).endTime = some env.nowEnd ∧
    (runRecord env topic depth).progress = 100 ∧
    (recordAtPrepend env topic depth).logs <+: (runRecord env topic depth).logs := by
  rw [runRecord_unfold, recordAtPrepend, stateAfterStep_three]
  simp only [executeStep, stepLogic, stepName, parseInput, gatherData, processData,
    persistResults, persistAssemble, returnResults, addLog, initialRecord,
    Option.getD_some, List.nil_append, List.cons_append, List.singleton_append,
    List.append_assoc, List.append_nil]
  refine ⟨trivial, trivial, trivial, trivial, trivial, trivial, trivial, trivial,
    by norm_num, ⟨_, rfl⟩⟩
